import Mathlib

/-! Verification of the cm2py circuit-save library (src/cm2py/cm2py.py).

The Python module is shallowly embedded: Python floats become `PyFloat`
(a rational number or the IEEE NaN), Python dicts (insertion ordered)
become association lists, `uuid4` becomes a monotone counter (the spec's
design notes explicitly allow replacing the token type by a monotonically
increasing handle), raised exceptions become `Except PyErr`, and the
validation regex becomes a backtracking matcher transcribed group by
group from the pattern literal inside `validateSave`.  Strings are
processed as lists of character codes (`Char.toNat`); the codes that
appear are 10 newline, 43 plus, 44 comma, 45 minus, 46 dot, 48 zero,
49 one, 57 nine, 59 semicolon, 63 question mark, 95 underscore.

Note that the Python source hands the validation pattern to the
standard-library `re` module, which does not support the PCRE-style
constructs the pattern uses — `(?<b>` named groups, `(?&d)` subroutine
calls, and before Python 3.11 `(?>` atomic groups — so `re.match` raises
`re.error` when the pattern is compiled, on every call; the matcher below
models the pattern's own (PCRE / `regex`-module) semantics, which is what
the rest of the module is written against. -/

namespace Cm2py

/-- Python exception kinds that the modelled code can raise. -/
inductive PyErr where
  | assertionError
  | valueError
  | keyError
  | indexError
  | runtimeError
  | nameError
  deriving DecidableEq

/-- Python float: a rational number (all finite floats are rational) or NaN.
Infinities never arise in the modelled code paths. -/
inductive PyFloat where
  | num (q : ℚ)
  | nan
  deriving DecidableEq

/-- Python `==` on floats: NaN compares unequal to everything, itself included. -/
def pyEq : PyFloat → PyFloat → Bool
  | .num a, .num b => a == b
  | _, _ => false

/-! Character classes used by the validation regex, on character codes
(the save strings are ASCII). -/

/-- Bool test lo ≤ n ≤ hi on naturals. -/
def between (lo hi n : Nat) : Bool := lo.ble n && n.ble hi

/-- Class \d (codes of 0-9). -/
def isDigitC (n : Nat) : Bool := between 48 57 n

/-- Class [A-Za-z]. -/
def isLetterC (n : Nat) : Bool := between 65 90 n || between 97 122 n

/-- Class [0-9a-fA-F]. -/
def isHexC (n : Nat) : Bool := isDigitC n || between 97 102 n || between 65 70 n

/-- Class \w (ASCII reading: letters, digits, underscore). -/
def isWordC (n : Nat) : Bool := isDigitC n || isLetterC n || n == 95

/-- Class [\d\w,;?+] used in the boundary lookarounds of the pattern. -/
def isBoundaryC (n : Nat) : Bool :=
  isDigitC n || isWordC n || n == 44 || n == 59 || n == 63 || n == 43

/-! Backtracking regex matcher.  A matcher takes the last character
consumed (every lookbehind in this pattern inspects one character) and the
remaining input, and returns every possible (last consumed, rest) outcome
in the engine's preference order; atomic groups keep only the first
outcome. -/

/-- Outcomes of a match attempt: (last consumed character if any, remaining
input), in the engine's preference order. -/
abbrev MRes := List (Option Nat × List Nat)

/-- A matcher in the outcome-list semantics. -/
abbrev M := Option Nat → List Nat → MRes

/-- Empty pattern. -/
def mEps : M := fun p r => [(p, r)]

/-- Single character from a class. -/
def mCls (f : Nat → Bool) : M := fun _ r =>
  match r with
  | [] => []
  | c :: cs => if f c then [(some c, cs)] else []

/-- Single literal character. -/
def mChr (a : Nat) : M := mCls (fun c => c == a)

/-- Concatenation. -/
def mSeq (a b : M) : M := fun p r => (a p r).flatMap fun x => b x.1 x.2

/-- Alternation, left-preferred. -/
def mAlt (a b : M) : M := fun p r => a p r ++ b p r

/-- Greedy option X?. -/
def mOpt (a : M) : M := mAlt a mEps

/-- Atomic group (?>X): commit to the first way X matches. -/
def mAtomic (a : M) : M := fun p r => (a p r).take 1

/-- Negative lookahead (?!C) for a single-character class C. -/
def mNegLookahead (f : Nat → Bool) : M := fun p r =>
  match r with
  | [] => [(p, r)]
  | c :: _ => if f c then [] else [(p, r)]

/-- Negative lookbehind (?<!C) for a single-character class C; at the start
of the input nothing precedes and the lookbehind holds. -/
def mNegLookbehind (f : Nat → Bool) : M := fun p r =>
  match p with
  | none => [(p, r)]
  | some c => if f c then [] else [(p, r)]

/-- Greedy star, fuelled.  Every quantified body in the save pattern
consumes at least one character per iteration (each starts with a mandatory
character class), so fuel = length of the remaining input bounds the number
of iterations and the fuelled unfolding is exact. -/
def mStarAux (a : M) : Nat → M
  | 0 => mEps
  | n + 1 => fun p r =>
      ((a p r).flatMap fun x => mStarAux a n x.1 x.2) ++ [(p, r)]

/-- Greedy star X*. -/
def mStar (a : M) : M := fun p r => mStarAux a r.length p r

/-- Greedy plus X+. -/
def mPlus (a : M) : M := mSeq a (mStar a)

/-- Exact repetition of X, n times. -/
def mRepN (a : M) : Nat → M
  | 0 => mEps
  | n + 1 => mSeq a (mRepN a n)

/-- Anchor $ with Python semantics: end of input, or just before a final newline. -/
def mEnd : M := fun p r =>
  match r with
  | [] => [(p, r)]
  | c :: cs => if c == 10 && cs.isEmpty then [(p, r)] else []

/-! Transcription of the save-string pattern from `validateSave`, group by
group.  Literal characters are written as their codes. -/

/-- Named group d of the pattern: -?\d*\.?\d* (an optionally signed,
optionally fractional, possibly empty decimal literal). -/
def reD : M :=
  mSeq (mOpt (mChr 45))
    (mSeq (mStar (mCls isDigitC))
      (mSeq (mOpt (mChr 46)) (mStar (mCls isDigitC))))

/-- Named group i of the pattern: [1-9][0-9]* (positive integer, no leading zero). -/
def reI : M :=
  mSeq (mCls (fun c => between 49 57 c)) (mStar (mCls isDigitC))

/-- Named group b of the pattern, one block record:
\d+ then a comma, then [01]?, then exactly three of the atomic group
(?>,d), then (?>(\+|,)d(?!,))*, then an optional semicolon. -/
def reB : M :=
  mSeq (mPlus (mCls isDigitC))
    (mSeq (mChr 44)
      (mSeq (mOpt (mCls (fun c => c == 48 || c == 49)))
        (mSeq (mRepN (mAtomic (mSeq (mChr 44) reD)) 3)
          (mSeq
            (mStar (mAtomic
              (mSeq (mAlt (mChr 43) (mChr 44))
                (mSeq reD (mNegLookahead (fun c => c == 44))))))
            (mOpt (mChr 59))))))

/-- Blocks segment: (?>b+(?<!;)\?). -/
def reBlocksSeg : M :=
  mAtomic (mSeq (mPlus reB)
    (mSeq (mNegLookbehind (fun c => c == 59)) (mChr 63)))

/-- Connections segment: (?>i,i;?)*(?<!;)\?. -/
def reConnSeg : M :=
  mSeq
    (mStar (mAtomic
      (mSeq reI (mSeq (mChr 44) (mSeq reI (mOpt (mChr 59)))))))
    (mSeq (mNegLookbehind (fun c => c == 59)) (mChr 63))

/-- One building record: (?> [A-Za-z]+ comma, three then nine of the atomic
group (?>d-comma), then (?>[01]i,?)*, then (?<!,) and an optional semicolon). -/
def reBuilding : M :=
  mAtomic
    (mSeq (mPlus (mCls isLetterC))
      (mSeq (mChr 44)
        (mSeq (mRepN (mAtomic (mSeq reD (mChr 44))) 3)
          (mSeq (mRepN (mAtomic (mSeq reD (mChr 44))) 9)
            (mSeq
              (mStar (mAtomic
                (mSeq (mCls (fun c => c == 48 || c == 49))
                  (mSeq reI (mOpt (mChr 44))))))
              (mSeq (mNegLookbehind (fun c => c == 44)) (mOpt (mChr 59))))))))

/-- Buildings segment: building*(?<!;)\?. -/
def reBuildSeg : M :=
  mSeq (mStar reBuilding)
    (mSeq (mNegLookbehind (fun c => c == 59)) (mChr 63))

/-- Sign segment: (([0-9a-fA-F][0-9a-fA-F]))*. -/
def reSignSeg : M := mStar (mSeq (mCls isHexC) (mCls isHexC))

/-- The whole pattern of `validateSave`:
(?<![\d\w,;?+]) blocks connections buildings sign (?![\d\w,;?+])$ . -/
def reSave : M :=
  mSeq (mNegLookbehind isBoundaryC)
    (mSeq reBlocksSeg
      (mSeq reConnSeg
        (mSeq reBuildSeg
          (mSeq reSignSeg (mSeq (mNegLookahead isBoundaryC) mEnd)))))

/-- Model of `validateSave`: true iff `re.match` would find a match, i.e.
the transcribed pattern has at least one outcome starting at position 0. -/
def validateSave (string : String) : Bool :=
  !(reSave none (string.data.map Char.toNat)).isEmpty

/-! Rendering helpers for `Block.__str__`. -/

/-- Largest k such that p^k divides n (0 when p ≤ 1 or n = 0). -/
def powDiv (p n : Nat) : Nat :=
  if h : 1 < p ∧ 0 < n ∧ n % p = 0 then powDiv p (n / p) + 1 else 0
termination_by n
decreasing_by exact Nat.div_lt_self h.2.1 h.1

/-- Drop trailing zero digits. -/
def stripZeros (l : List Char) : List Char := (l.reverse.dropWhile fun c => c == '0').reverse

/-- Decimal digits of m, left-padded with zeros to length k. -/
def natPadDigits (m k : Nat) : List Char :=
  let ds := (toString m).data
  List.replicate (k - ds.length) '0' ++ ds

/-- Python str() of a finite float with a terminating decimal expansion:
sign, integer part, a dot, and the fractional digits with trailing zeros
stripped but at least one digit kept (str(2.0) is "2.0", str(1.5) is "1.5").
Every Python float has a denominator of the form 2^a, so the scale below
is exact on every value the modelled code can hold. -/
def ratDecimalRepr (q : ℚ) : String :=
  let sgn := if q < 0 then "-" else ""
  let a : ℚ := |q|
  let k := max (powDiv 2 a.den) (powDiv 5 a.den)
  let m := a.num.toNat * 10 ^ k / a.den
  let ip := m / 10 ^ k
  let fr := m % 10 ^ k
  let frDigits := stripZeros (natPadDigits fr k)
  sgn ++ toString ip ++ "." ++ (if frDigits.isEmpty then "0" else String.mk frDigits)

/-- Python str() of one coordinate, from Block.__str__:
str(int(x)) if x.is_integer() else str(x). -/
def coordStr : PyFloat → String
  | .num q => if q.den = 1 then toString q.num else ratDecimalRepr q
  | .nan => "nan"

/-- Python str() on a bool: "True" or "False". -/
def pyBoolStr (b : Bool) : String := if b then "True" else "False"

/-! The entity model: Block and Save. -/

/-- Block: blockId, position, state, properties, and the identity token
(uuid4 in the source, modelled as a number drawn from a monotone counter). -/
structure Block where
  blockId : Int
  pos : PyFloat × PyFloat × PyFloat
  state : Bool
  properties : List ℚ
  uuid : Nat
  deriving DecidableEq

/-- Block.move: the source computes
pos = (pos[0] if x == nan else x, pos[1] if y == nan else y, pos[2] if z == nan else z)
with nan = float("nan"); each omitted argument defaults to nan. -/
def Block.move (b : Block) (x : PyFloat := .nan) (y : PyFloat := .nan)
    (z : PyFloat := .nan) : Block :=
  { b with pos :=
      ((if pyEq x .nan then b.pos.1 else x),
       (if pyEq y .nan then b.pos.2.1 else y),
       (if pyEq z .nan then b.pos.2.2 else z)) }

/-- Block.__str__: blockId, comma, str(state), comma, the three coordinates,
then when properties are nonempty one comma and the properties joined by +
(each rendered with plain str(), which keeps a trailing ".0"). -/
def Block.str (b : Block) : String :=
  let props := b.properties.map ratDecimalRepr
  let posParts := [coordStr b.pos.1, coordStr b.pos.2.1, coordStr b.pos.2.2]
  toString b.blockId ++ "," ++ pyBoolStr b.state ++ "," ++ String.intercalate "," posParts ++
    (if b.properties.length > 0 then "," ++ String.intercalate "+" props else "")

/-- Save: insertion-ordered dict of blocks keyed by uuid, insertion-ordered
dict of connections keyed by (source uuid, target uuid) — the stored value
(source, target) pair carries no information beyond the key and is dropped —
and the fresh-identity counter replacing uuid4. -/
structure Save where
  blocks : List (Nat × Block)
  connections : List (Nat × Nat)
  nextUuid : Nat
  deriving DecidableEq

/-- Save.__init__: empty dicts. -/
def Save.new : Save := ⟨[], [], 0⟩

/-- Python dict insert for the connections dict: replacing an existing key
keeps its position, a new key is appended. -/
def dictInsertKey (k : Nat × Nat) : List (Nat × Nat) → List (Nat × Nat)
  | [] => [k]
  | k' :: rest => if k' = k then k' :: rest else k' :: dictInsertKey k rest

/-- Python dict del for the blocks dict: remove the entry with the key. -/
def delBlockKey (u : Nat) : List (Nat × Block) → List (Nat × Block)
  | [] => []
  | kb :: rest => if kb.1 = u then rest else kb :: delBlockKey u rest

/-- Python dict del for the connections dict. -/
def delKey (k : Nat × Nat) : List (Nat × Nat) → List (Nat × Nat)
  | [] => []
  | c :: rest => if c = k then rest else c :: delKey k rest

/-- Membership test: uuid in self.blocks. -/
def blocksHasKey (bs : List (Nat × Block)) (u : Nat) : Bool := bs.any fun kb => kb.1 = u

/-- Membership test: key in self.connections. -/
def connsHasKey (l : List (Nat × Nat)) (k : Nat × Nat) : Bool := l.any fun c => c = k

/-- Python int() applied to a rational (truncation toward zero). -/
def pyTruncQ (q : ℚ) : Int := Int.tdiv q.num q.den

/-- Python int() applied to a float; int(nan) raises ValueError. -/
def pyTrunc : PyFloat → Except PyErr PyFloat
  | .num q => .ok (.num (pyTruncQ q))
  | .nan => .error .valueError

/-- Snap of a position: (int(pos[0]), int(pos[1]), int(pos[2])). -/
def snapPos (pos : PyFloat × PyFloat × PyFloat) : Except PyErr (PyFloat × PyFloat × PyFloat) :=
  match pyTrunc pos.1, pyTrunc pos.2.1, pyTrunc pos.2.2 with
  | .ok a, .ok b, .ok c => .ok (a, b, c)
  | _, _, _ => .error .valueError

/-- Save.addBlock: build Block(blockId, snapped-or-raw position, state, properties)
— Block.__init__ asserts 0 ≤ blockId ≤ 19 — insert it at its fresh uuid, return it.
The aliasing of the Python default properties list is modelled separately (see
the definitions around blockNew below); here properties carry value semantics. -/
def Save.addBlock (s : Save) (blockId : Int) (pos : PyFloat × PyFloat × PyFloat)
    (state : Bool := false) (properties : List ℚ := []) (snapToGrid : Bool := true) :
    Except PyErr (Save × Block) :=
  match (if snapToGrid then snapPos pos else .ok pos) with
  | .error e => .error e
  | .ok pos' =>
      if 0 ≤ blockId ∧ blockId ≤ 19 then
        let b : Block := ⟨blockId, pos', state, properties, s.nextUuid⟩
        .ok ({ s with blocks := s.blocks ++ [(s.nextUuid, b)], nextUuid := s.nextUuid + 1 }, b)
      else .error .assertionError

/-- Save.addConnection: self.connections[(source.uuid, target.uuid)] = (source, target),
with no check that either block belongs to this save. -/
def Save.addConnection (s : Save) (source target : Block) : Save :=
  { s with connections := dictInsertKey (source.uuid, target.uuid) s.connections }

/-- CPython iteration over self.connections.keys() with del inside the loop:
the first key whose source or target equals the uuid is deleted, and the very
next call of the iterator raises RuntimeError (dictionary changed size during
iteration) — that next call always happens, even past the last key. -/
def pyIterDelete (u : Nat) : List (Nat × Nat) → Bool → Except PyErr (List (Nat × Nat))
  | _, true => .error .runtimeError
  | [], false => .ok []
  | c :: rest, false =>
      if c.1 = u ∨ c.2 = u then pyIterDelete u rest true
      else Except.map (fun l => c :: l) (pyIterDelete u rest false)

/-- Save.deleteBlock: assert the uuid is present, loop over the connection
keys deleting every one that references it (which trips the RuntimeError
modelled by pyIterDelete as soon as one deletion happens), then delete the block. -/
def Save.deleteBlock (s : Save) (blockRef : Block) : Except PyErr Save :=
  if blocksHasKey s.blocks blockRef.uuid then
    match pyIterDelete blockRef.uuid s.connections false with
    | .error e => .error e
    | .ok conns =>
        .ok { s with blocks := delBlockKey blockRef.uuid s.blocks, connections := conns }
  else .error .assertionError

/-- Save.deleteConnection: del self.connections[(source.uuid, target.uuid)];
KeyError when the pair is absent. -/
def Save.deleteConnection (s : Save) (source target : Block) : Except PyErr Save :=
  if connsHasKey s.connections (source.uuid, target.uuid) then
    .ok { s with connections := delKey (source.uuid, target.uuid) s.connections }
  else .error .keyError

/-- Lookup in the export index dict. -/
def idxLookup (l : List (Nat × Nat)) (u : Nat) : Option Nat :=
  (l.find? fun kv => kv.1 = u).map fun kv => kv.2

/-- Save.exportSave: 1-based indexes in block insertion order, str(block) for
each block, srcIndex,tgtIndex for each connection key, assembled as
blocks ? connections ?? (an indexes[...] miss would raise KeyError, modelled
as none; it cannot happen on saves built through addBlock/addConnection alone). -/
def Save.exportSave (s : Save) : Option String :=
  let indexes := s.blocks.enum.map fun p => (p.2.1, p.1 + 1)
  let blockstrings := s.blocks.map fun kb => Block.str kb.2
  match s.connections.mapM (fun c =>
      match idxLookup indexes c.1, idxLookup indexes c.2 with
      | some i, some j => some (toString i ++ "," ++ toString j)
      | _, _ => none) with
  | some connectionstrings =>
      some (String.intercalate ";" blockstrings ++ "?" ++
        String.intercalate ";" connectionstrings ++ "??")
  | none => none

/-! The parser, `importSave`, again over lists of character codes. -/

/-- Python str.split with a one-character separator: "".split(sep) is [""],
and empty fields between adjacent separators are kept. -/
def pySplit (sep : Nat) : List Nat → List (List Nat)
  | [] => [[]]
  | c :: rest =>
      let r := pySplit sep rest
      if c == sep then [] :: r
      else
        match r with
        | g :: gs => (c :: g) :: gs
        | [] => [[c]]

/-- Numeric value of a list of digit codes. -/
def digitsVal (l : List Nat) : Nat := l.foldl (fun n c => n * 10 + (c - 48)) 0

/-- Python int() on a string: optional sign then one or more digits
(whitespace trimming and underscores are not modelled; the save format
never produces them).  Raises ValueError — here none — otherwise. -/
def pyParseIntChars (l : List Nat) : Option Int :=
  match l with
  | 45 :: rest => if !rest.isEmpty && rest.all isDigitC then some (-(digitsVal rest : Int)) else none
  | 43 :: rest => if !rest.isEmpty && rest.all isDigitC then some (digitsVal rest : Int) else none
  | _ => if !l.isEmpty && l.all isDigitC then some (digitsVal l : Int) else none

/-- Python float() on a string, restricted to the shapes the save grammar
can produce: optional sign, digits, optional dot, digits, with at least one
digit ("1." and ".5" parse; "", "-" and "." raise ValueError — here none).
Exponents, inf and nan literals are not modelled. -/
def pyParseFloatChars (l : List Nat) : Option ℚ :=
  let signed : Bool × List Nat :=
    match l with
    | 45 :: r => (true, r)
    | 43 :: r => (false, r)
    | r => (false, r)
  let ip := signed.2.takeWhile isDigitC
  let l2 := signed.2.drop ip.length
  let fpRest : List Nat × List Nat :=
    match l2 with
    | 46 :: r => (r.takeWhile isDigitC, r.drop (r.takeWhile isDigitC).length)
    | r => ([], r)
  if fpRest.2.isEmpty && (!ip.isEmpty || !fpRest.1.isEmpty) then
    let v : ℚ := (digitsVal ip : ℚ) + (digitsVal fpRest.1 : ℚ) / (10 : ℚ) ^ fpRest.1.length
    some (if signed.1 then -v else v)
  else none

/-- Python list indexing blocks[i]: negative indexes count from the end;
out of range raises IndexError — here none. -/
def pyListGet (l : List Block) (i : Int) : Option Block :=
  if i < 0 then
    let j := (l.length : Int) + i
    if j < 0 then none else l.get? j.toNat
  else l.get? i.toNat

/-- First loop of importSave: each record of the blocks segment is split on
the comma and unpacked as block_id,state,x,y,z,properties — exactly six
fields, or the unpacking raises ValueError — the properties field is split
on the plus sign and parsed with float(), and the block is added with state
true iff the state field is literally "1" (code 49). -/
def importBlocks (recs : List (List Nat)) (s : Save) (blocks : List Block)
    (snapToGrid : Bool) : Except PyErr (Save × List Block) :=
  match recs with
  | [] => .ok (s, blocks)
  | r :: rest =>
      match pySplit 44 r with
      | [bid, state, x, y, z, properties] =>
          match (pySplit 43 properties).mapM pyParseFloatChars, pyParseIntChars bid,
              pyParseFloatChars x, pyParseFloatChars y, pyParseFloatChars z with
          | some props, some bidI, some xq, some yq, some zq =>
              match s.addBlock bidI (.num xq, .num yq, .num zq) (state == [49]) props snapToGrid with
              | .ok (s', nb) => importBlocks rest s' (blocks ++ [nb]) snapToGrid
              | .error e => .error e
          | _, _, _, _, _ => .error .valueError
      | _ => .error .valueError

/-- Second loop of importSave: each entry of the connections segment is
split on the comma and unpacked as source,target — exactly two fields —
parsed with int() and used directly as indexes into the block list built
by the first loop. -/
def importConns (entries : List (List Nat)) (s : Save) (blocks : List Block) :
    Except PyErr Save :=
  match entries with
  | [] => .ok s
  | e :: rest =>
      match pySplit 44 e with
      | [src, tgt] =>
          match pyParseIntChars src, pyParseIntChars tgt with
          | some i, some j =>
              match pyListGet blocks i, pyListGet blocks j with
              | some bs, some bt => importConns rest (s.addConnection bs bt) blocks
              | _, _ => .error .indexError
          | _, _ => .error .valueError
      | _ => .error .valueError

/-- importSave: assert validateSave(string) — AssertionError when false —
then unpack string.split("?") as blockstring,connectionstring,buildings,sign
(exactly four parts), run the two loops above, and return the new save.
The buildings and sign parts are never reconstructed. -/
def importSave (string : String) (snapToGrid : Bool := true) : Except PyErr Save :=
  if validateSave string = false then .error .assertionError
  else
    match pySplit 63 (string.data.map Char.toNat) with
    | [blockstring, connectionstring, _buildings, _sign] =>
        match importBlocks (pySplit 59 blockstring) Save.new [] snapToGrid with
        | .error e => .error e
        | .ok (s, blocks) => importConns (pySplit 59 connectionstring) s blocks
    | _ => .error .valueError

/-! Model of the shared mutable default argument of Block.__init__.
CPython evaluates a def's default values once, when the def statement runs;
`properties: list[float] = []` therefore allocates a single empty list that
every call omitting the argument binds.  List objects live in an explicit
store here so that aliasing is observable. -/

/-- Store of Python list objects, plus the uuid counter; cell 0 is the one
default list created when the Block class body was executed. -/
structure PyState where
  cells : List (List ℚ)
  nextUuid : Nat
  deriving DecidableEq

/-- The module state right after class Block's def ran: one empty list object. -/
def pyStateInit : PyState := ⟨[[]], 0⟩

/-- The cell holding Block.__init__'s default properties list. -/
def defaultPropsCell : Nat := 0

/-- A Block whose properties field is a reference to a list object. -/
structure BlockObj where
  blockId : Int
  pos : PyFloat × PyFloat × PyFloat
  state : Bool
  propsCell : Nat
  uuid : Nat
  deriving DecidableEq

/-- Block.__init__ with reference semantics for properties: an omitted
argument binds the single default cell, it is stored without copying. -/
def blockNew (st : PyState) (blockId : Int) (pos : PyFloat × PyFloat × PyFloat)
    (state : Bool := false) (properties : Option Nat := none) :
    Except PyErr (PyState × BlockObj) :=
  if 0 ≤ blockId ∧ blockId ≤ 19 then
    .ok ({ st with nextUuid := st.nextUuid + 1 },
      ⟨blockId, pos, state, properties.getD defaultPropsCell, st.nextUuid⟩)
  else .error .assertionError

/-- Read a list object. -/
def cellRead (st : PyState) (c : Nat) : List ℚ := (st.cells.get? c).getD []

/-- In-place list.append on a list object. -/
def cellAppend (st : PyState) (c : Nat) (v : ℚ) : PyState :=
  { st with cells := st.cells.set c (cellRead st c ++ [v]) }

/-- The aliasing scenario: create two Blocks with the properties argument
omitted, append 1.0 to the first Block's properties, read the second
Block's properties. -/
def c9Observed : Except PyErr (List ℚ) :=
  match blockNew pyStateInit 1 (.num 0, .num 0, .num 0) with
  | .error e => .error e
  | .ok (st1, b1) =>
      match blockNew st1 1 (.num 1, .num 0, .num 0) with
      | .error e => .error e
      | .ok (st2, b2) => .ok (cellRead (cellAppend st2 b1.propsCell 1) b2.propsCell)

/-! Invariant I1 and arbitrary sequences of public operations (claim C8).
A client program holds references to the Block objects returned by addBlock
and may pass any of them — current or stale — to the other operations, so a
trace is a list of operation syntax referring to previously returned blocks
by position. -/

/-- Invariant I1: every connection's source and target uuid is a key of the
save's block collection. -/
def i1Check (s : Save) : Bool :=
  s.connections.all fun c => blocksHasKey s.blocks c.1 && blocksHasKey s.blocks c.2

/-- One public-constructor call; block arguments are positions into the
list of Block objects returned by earlier addBlock calls. -/
inductive Op where
  | addBlock (blockId : Int) (pos : PyFloat × PyFloat × PyFloat)
      (state : Bool) (properties : List ℚ) (snapToGrid : Bool)
  | addConnection (source target : Nat)
  | deleteBlock (ref : Nat)
  | deleteConnection (source target : Nat)

/-- The client's state: the save plus every Block object returned so far
(Python variables keep deleted blocks alive). -/
structure Env where
  save : Save
  refs : List Block
  deriving DecidableEq

/-- The starting state: Save() and no block references. -/
def env0 : Env := ⟨Save.new, []⟩

/-- Run one call; referring to a block position that was never returned is
a client-side NameError, not a library behaviour. -/
def runOp (e : Env) : Op → Except PyErr Env
  | .addBlock bid pos st pr snap =>
      match e.save.addBlock bid pos st pr snap with
      | .ok (s', b) => .ok ⟨s', e.refs ++ [b]⟩
      | .error err => .error err
  | .addConnection i j =>
      match e.refs.get? i, e.refs.get? j with
      | some bs, some bt => .ok ⟨e.save.addConnection bs bt, e.refs⟩
      | _, _ => .error .nameError
  | .deleteBlock i =>
      match e.refs.get? i with
      | some b =>
          match e.save.deleteBlock b with
          | .ok s' => .ok ⟨s', e.refs⟩
          | .error err => .error err
      | none => .error .nameError
  | .deleteConnection i j =>
      match e.refs.get? i, e.refs.get? j with
      | some bs, some bt =>
          match e.save.deleteConnection bs bt with
          | .ok s' => .ok ⟨s', e.refs⟩
          | .error err => .error err
      | _, _ => .error .nameError

/-- Run a trace of calls. -/
def runOps : List Op → Env → Except PyErr Env
  | [], e => .ok e
  | op :: ops, e =>
      match runOp e op with
      | .ok e1 => runOps ops e1
      | .error err => .error err

/-- Side condition under which I1 is actually preserved: every addConnection
call receives two blocks whose uuids are keys of the save at the time of the
call (addConnection itself never checks this). -/
def connArgsPresent (e : Env) : Op → Bool
  | .addConnection i j =>
      match e.refs.get? i, e.refs.get? j with
      | some bs, some bt => blocksHasKey e.save.blocks bs.uuid && blocksHasKey e.save.blocks bt.uuid
      | _, _ => true
  | _ => true

/-- The side condition holds along the whole trace. -/
def okTrace : List Op → Env → Bool
  | [], _ => true
  | op :: ops, e =>
      connArgsPresent e op &&
        (match runOp e op with
         | .ok e1 => okTrace ops e1
         | .error _ => true)

/-! Helper lemmas for the I1 preservation proof. -/

/-- Adding entries on the right preserves a key being present. -/
theorem blocksHasKey_append {bs l : List (Nat × Block)} {u : Nat}
    (h : blocksHasKey bs u = true) : blocksHasKey (bs ++ l) u = true := by
  simp only [blocksHasKey, List.any_append, Bool.or_eq_true]
  exact Or.inl h

/-- Deleting the entry of a different key preserves a key being present. -/
theorem blocksHasKey_delBlockKey {u x : Nat} (hne : x ≠ u) :
    ∀ {bs : List (Nat × Block)}, blocksHasKey bs x = true →
      blocksHasKey (delBlockKey u bs) x = true := by
  intro bs
  induction bs with
  | nil => intro h; exact absurd h (by simp [blocksHasKey])
  | cons kb rest ih =>
      intro h
      simp only [blocksHasKey, List.any_cons, Bool.or_eq_true, decide_eq_true_eq] at h
      by_cases hk : kb.1 = u
      · simp only [delBlockKey, if_pos hk]
        rcases h with h1 | h2
        · exact absurd (h1 ▸ hk) hne
        · exact h2
      · simp only [delBlockKey, if_neg hk, blocksHasKey, List.any_cons, Bool.or_eq_true]
        rcases h with h1 | h2
        · exact Or.inl (by simp [h1])
        · exact Or.inr (ih h2)

/-- Membership after a dict insert: the new key or an old one. -/
theorem mem_dictInsertKey {k c : Nat × Nat} :
    ∀ {l : List (Nat × Nat)}, c ∈ dictInsertKey k l → c = k ∨ c ∈ l := by
  intro l
  induction l with
  | nil => intro h; simp only [dictInsertKey, List.mem_singleton] at h; exact Or.inl h
  | cons k' rest ih =>
      intro h
      by_cases hk : k' = k
      · simp only [dictInsertKey, if_pos hk] at h
        exact Or.inr h
      · simp only [dictInsertKey, if_neg hk, List.mem_cons] at h
        rcases h with h1 | h2
        · exact Or.inr (by rw [h1]; exact List.mem_cons_self k' rest)
        · rcases ih h2 with h3 | h4
          · exact Or.inl h3
          · exact Or.inr (List.mem_cons_of_mem k' h4)

/-- Membership after a dict delete implies membership before. -/
theorem mem_delKey {k c : Nat × Nat} :
    ∀ {l : List (Nat × Nat)}, c ∈ delKey k l → c ∈ l := by
  intro l
  induction l with
  | nil => intro h; simp [delKey] at h
  | cons c' rest ih =>
      intro h
      by_cases hk : c' = k
      · simp only [delKey, if_pos hk] at h
        exact List.mem_cons_of_mem c' h
      · simp only [delKey, if_neg hk, List.mem_cons] at h
        rcases h with h1 | h2
        · exact h1 ▸ List.mem_cons_self c' rest
        · exact List.mem_cons_of_mem c' (ih h2)

/-- When the key-deleting iteration of deleteBlock returns normally, no key
referenced the uuid and the connection dict is unchanged. -/
theorem pyIterDelete_ok {u : Nat} :
    ∀ {ks : List (Nat × Nat)} {d : Bool} {l : List (Nat × Nat)},
      pyIterDelete u ks d = .ok l → l = ks ∧ ∀ c ∈ ks, c.1 ≠ u ∧ c.2 ≠ u := by
  intro ks
  induction ks with
  | nil =>
      intro d l h
      cases d with
      | true => exact absurd h (by simp [pyIterDelete])
      | false =>
          simp only [pyIterDelete] at h
          cases h
          exact ⟨rfl, by intro c hc; simp at hc⟩
  | cons c rest ih =>
      intro d l h
      cases d with
      | true => exact absurd h (by simp [pyIterDelete])
      | false =>
          simp only [pyIterDelete] at h
          by_cases hm : c.1 = u ∨ c.2 = u
          · rw [if_pos hm] at h
            exact absurd h (by cases rest <;> simp [pyIterDelete])
          · rw [if_neg hm] at h
            cases hrec : pyIterDelete u rest false with
            | error e => rw [hrec] at h; exact absurd h (by simp [Except.map])
            | ok l' =>
                rw [hrec] at h
                simp only [Except.map] at h
                cases h
                obtain ⟨hl, hall⟩ := ih hrec
                push_neg at hm
                refine ⟨by rw [hl], ?_⟩
                intro x hx
                rcases List.mem_cons.mp hx with h1 | h2
                · exact h1 ▸ hm
                · exact hall x h2

/-- Shape of a successful addBlock: one block appended, connections unchanged. -/
theorem addBlock_ok {s : Save} {bid : Int} {pos : PyFloat × PyFloat × PyFloat}
    {st : Bool} {pr : List ℚ} {snap : Bool} {s' : Save} {b : Block}
    (h : s.addBlock bid pos st pr snap = .ok (s', b)) :
    s'.blocks = s.blocks ++ [(s.nextUuid, b)] ∧ s'.connections = s.connections := by
  unfold Save.addBlock at h
  cases hsp : (if snap then snapPos pos else .ok pos) with
  | error e => rw [hsp] at h; exact absurd h (by simp)
  | ok pos' =>
      rw [hsp] at h
      dsimp only at h
      by_cases hb : 0 ≤ bid ∧ bid ≤ 19
      · rw [if_pos hb] at h
        injection h with h1
        injection h1 with hsave hblock
        subst hblock
        subst hsave
        exact ⟨rfl, rfl⟩
      · rw [if_neg hb] at h
        exact absurd h (by simp)

/-- One completed call preserves I1, given the addConnection side condition. -/
theorem i1_runOp {e e' : Env} {op : Op} (h1 : i1Check e.save = true)
    (h2 : connArgsPresent e op = true) (h3 : runOp e op = .ok e') :
    i1Check e'.save = true := by
  cases op with
  | addBlock bid pos st pr snap =>
      simp only [runOp] at h3
      cases hab : e.save.addBlock bid pos st pr snap with
      | error err => rw [hab] at h3; exact absurd h3 (by simp)
      | ok sb =>
          obtain ⟨s', b⟩ := sb
          rw [hab] at h3
          injection h3 with h3
          subst h3
          obtain ⟨hbl, hcn⟩ := addBlock_ok hab
          simp only [i1Check, List.all_eq_true, Bool.and_eq_true] at h1 ⊢
          intro c hc
          rw [hcn] at hc
          obtain ⟨hc1, hc2⟩ := h1 c hc
          rw [hbl]
          exact ⟨blocksHasKey_append hc1, blocksHasKey_append hc2⟩
  | addConnection i j =>
      simp only [runOp] at h3
      simp only [connArgsPresent] at h2
      cases hi : e.refs.get? i with
      | none => rw [hi] at h3; exact absurd h3 (by simp)
      | some bs =>
          cases hj : e.refs.get? j with
          | none => rw [hi, hj] at h3; exact absurd h3 (by simp)
          | some bt =>
              rw [hi, hj] at h3
              rw [hi, hj] at h2
              injection h3 with h3
              subst h3
              simp only [Bool.and_eq_true] at h2
              simp only [i1Check, Save.addConnection, List.all_eq_true, Bool.and_eq_true] at h1 ⊢
              intro c hc
              rcases mem_dictInsertKey hc with h4 | h5
              · subst h4; exact ⟨h2.1, h2.2⟩
              · exact h1 c h5
  | deleteBlock i =>
      simp only [runOp] at h3
      cases hi : e.refs.get? i with
      | none => rw [hi] at h3; exact absurd h3 (by simp)
      | some b =>
          rw [hi] at h3
          dsimp only at h3
          cases hdb : e.save.deleteBlock b with
          | error err => rw [hdb] at h3; exact absurd h3 (by simp)
          | ok s' =>
              rw [hdb] at h3
              injection h3 with h3
              subst h3
              unfold Save.deleteBlock at hdb
              by_cases hmem : blocksHasKey e.save.blocks b.uuid = true
              · rw [if_pos hmem] at hdb
                cases hit : pyIterDelete b.uuid e.save.connections false with
                | error err => rw [hit] at hdb; exact absurd hdb (by simp)
                | ok conns =>
                    rw [hit] at hdb
                    injection hdb with hdb
                    subst hdb
                    obtain ⟨hl, hnoref⟩ := pyIterDelete_ok hit
                    simp only [i1Check, List.all_eq_true, Bool.and_eq_true] at h1 ⊢
                    intro c hc
                    rw [hl] at hc
                    obtain ⟨hc1, hc2⟩ := h1 c hc
                    obtain ⟨hne1, hne2⟩ := hnoref c hc
                    exact ⟨blocksHasKey_delBlockKey hne1 hc1,
                      blocksHasKey_delBlockKey hne2 hc2⟩
              · rw [if_neg hmem] at hdb
                exact absurd hdb (by simp)
  | deleteConnection i j =>
      simp only [runOp] at h3
      cases hi : e.refs.get? i with
      | none => rw [hi] at h3; exact absurd h3 (by simp)
      | some bs =>
          cases hj : e.refs.get? j with
          | none => rw [hi, hj] at h3; exact absurd h3 (by simp)
          | some bt =>
              rw [hi, hj] at h3
              dsimp only at h3
              cases hdc : e.save.deleteConnection bs bt with
              | error err => rw [hdc] at h3; exact absurd h3 (by simp)
              | ok s' =>
                  rw [hdc] at h3
                  injection h3 with h3
                  subst h3
                  unfold Save.deleteConnection at hdc
                  by_cases hmem : connsHasKey e.save.connections (bs.uuid, bt.uuid) = true
                  · rw [if_pos hmem] at hdc
                    injection hdc with hdc
                    subst hdc
                    simp only [i1Check, List.all_eq_true, Bool.and_eq_true] at h1 ⊢
                    intro c hc
                    exact h1 c (mem_delKey hc)
                  · rw [if_neg hmem] at hdc
                    exact absurd hdc (by simp)

/-- C8 counterexample trace: addBlock, deleteBlock of it (no connections, so
it completes), then addConnection with the stale reference. -/
def cexOps : List Op :=
  [.addBlock 1 (.num 0, .num 0, .num 0) false [] true,
   .deleteBlock 0,
   .addConnection 0 0]

/-- Environment after the counterexample trace. -/
def cexEnv : Env :=
  match runOps cexOps env0 with
  | .ok e => e
  | .error _ => env0

/-- C8 counterexample: a sequence of public-constructor calls that completes
normally yet leaves a connection whose endpoints are not keys of the block
collection — addConnection never checks that its arguments still belong to
the save, so I1 is not preserved by every sequence as claimed. -/
theorem C8_counterexample :
    runOps cexOps env0 = .ok cexEnv ∧ i1Check cexEnv.save = false :=
  ⟨rfl, rfl⟩

/-- C8 as amended: I1 does hold after every trace of public-constructor
calls that completes normally provided every addConnection call's source and
target identities are keys of the save's block collection at the time of the
call; the other operations need no side condition. -/
theorem C8_i1_invariant :
    ∀ (ops : List Op) (e e' : Env), i1Check e.save = true → okTrace ops e = true →
      runOps ops e = .ok e' → i1Check e'.save = true := by
  intro ops
  induction ops with
  | nil =>
      intro e e' h1 _ h3
      simp only [runOps] at h3
      injection h3 with h3
      subst h3
      exact h1
  | cons op ops ih =>
      intro e e' h1 h2 h3
      simp only [runOps] at h3
      cases hop : runOp e op with
      | error err => rw [hop] at h3; exact absurd h3 (by simp)
      | ok e1 =>
          rw [hop] at h3
          simp only [okTrace, hop, Bool.and_eq_true] at h2
          exact ih e1 e' (i1_runOp h1 h2.1 hop) h2.2 h3

/-- Demonstration trace for the amended C8: two addBlocks and one
addConnection between the two live blocks. -/
def demoOps : List Op :=
  [.addBlock 1 (.num 0, .num 0, .num 0) false [] true,
   .addBlock 1 (.num 1, .num 0, .num 0) false [] true,
   .addConnection 0 1]

/-- Environment after the demonstration trace. -/
def demoEnv : Env :=
  match runOps demoOps env0 with
  | .ok e => e
  | .error _ => env0

/-- Witness for the amended C8 at the demonstration trace. -/
theorem C8_i1_invariant_witness : i1Check demoEnv.save = true :=
  C8_i1_invariant demoOps env0 demoEnv (by decide) (by decide) (by rfl)

/-! Concrete scenarios used to evaluate the claims. -/

/-- The save obtained from Save() followed by addBlock(1, (0, 0, 0)). -/
def save1 : Save :=
  match Save.new.addBlock 1 (.num 0, .num 0, .num 0) false [] true with
  | .ok p => p.1
  | .error _ => Save.new

/-- Two blocks and one connection between them, built through the public
constructors: b1 = addBlock(1,(0,0,0)); b2 = addBlock(1,(1,0,0));
addConnection(b1, b2). -/
def c6setup : Except PyErr (Save × Block × Block) :=
  match Save.new.addBlock 1 (.num 0, .num 0, .num 0) false [] true with
  | .error e => .error e
  | .ok (s1, b1) =>
      match s1.addBlock 1 (.num 1, .num 0, .num 0) false [] true with
      | .error e => .error e
      | .ok (s2, b2) => .ok (s2.addConnection b1 b2, b1, b2)

/-- The save of the c6 scenario. -/
def c6save : Save :=
  match c6setup with
  | .ok p => p.1
  | .error _ => Save.new

/-- The first block of the c6 scenario. -/
def c6b1 : Block :=
  match c6setup with
  | .ok p => p.2.1
  | .error _ => ⟨0, (.num 0, .num 0, .num 0), false, [], 0⟩

/-- The second block of the c6 scenario. -/
def c6b2 : Block :=
  match c6setup with
  | .ok p => p.2.2
  | .error _ => ⟨0, (.num 0, .num 0, .num 0), false, [], 0⟩

/-- A block at position (1, 2, 3). -/
def blk0 : Block := ⟨1, (.num 1, .num 2, .num 3), false, [], 0⟩

/-! Claim theorems. -/

/-- C2 (code_bug): the round trip importSave(exportSave(s)) fails even for a
one-block save built by the public constructors: exportSave renders the state
as the word "False", its own validator rejects that string, and importSave's
assert raises, instead of yielding an equivalent save as the claim states. -/
theorem C2_roundtrip_fails :
    save1.exportSave = some "1,False,0,0,0???" ∧
    importSave "1,False,0,0,0???" true = .error .assertionError :=
  ⟨rfl, rfl⟩

/-- C3 (code_bug): exportSave renders the block state with str(bool), giving
the word "False" rather than the digit "0" the claim (and the code's own
grammar) requires, and emits three ?-delimiters, so the one-block save
exports as "1,False,0,0,0???" and not the claimed "1,0,0,0,0??". -/
theorem C3_export_state_word :
    save1.exportSave = some "1,False,0,0,0???" ∧
    "1,False,0,0,0???" ≠ "1,0,0,0,0??" :=
  ⟨rfl, by decide⟩

/-- C4 (code_bug): validator soundness fails: the string exportSave produces
for a save built by the public constructors is rejected by validateSave,
because the state is rendered "False" where the grammar demands [01]?. -/
theorem C4_validate_export_false :
    save1.exportSave = some "1,False,0,0,0???" ∧
    validateSave "1,False,0,0,0???" = false :=
  ⟨rfl, rfl⟩

/-- C5 (code_bug): the claim's example importSave("1,0,0,0,0;1,0,1,0,0?0,1??")
does not yield a two-block save: the grammar only admits connection indices
matching [1-9][0-9]*, so validateSave rejects the 0-based entry "0,1" and the
parser's assert raises AssertionError. -/
theorem C5_import_example_rejected :
    importSave "1,0,0,0,0;1,0,1,0,0?0,1??" true = .error .assertionError ∧
    validateSave "1,0,0,0,0;1,0,1,0,0?0,1??" = false :=
  ⟨rfl, rfl⟩

/-- C5 continued, for the record: even on a grammar-valid string whose block
records carry no properties field, the parser's six-way unpacking of each
record raises ValueError, so "empty if absent" does not hold either. -/
theorem C5_unpack_valueerror :
    validateSave "1,0,0,0,0???" = true ∧
    importSave "1,0,0,0,0???" true = .error .valueError :=
  ⟨rfl, rfl⟩

/-- C6 (code_bug): deleteBlock deletes connection-dict entries while
iterating over the dict's keys, so as soon as one connection references the
block the iteration raises RuntimeError instead of completing the cascade. -/
theorem C6_deleteBlock_raises :
    c6setup = .ok (c6save, c6b1, c6b2) ∧
    c6save.deleteBlock c6b1 = .error .runtimeError :=
  ⟨rfl, rfl⟩

/-- C7 counterexample: moving blk0 = (1,2,3) with x = 5 (y, z omitted) does
not leave the position unchanged, contradicting the claim that move is inert. -/
theorem C7_counterexample : (blk0.move (.num 5)).pos ≠ blk0.pos := by decide

/-- C7 as amended: the NaN-sentinel comparison x == nan always evaluates
false, so every axis is treated as provided and move overwrites the whole
position with its three arguments; omitted axes are therefore set to NaN,
not preserved. -/
theorem C7_move_always_overwrites (b : Block) (x y z : PyFloat) :
    (b.move x y z).pos = (x, y, z) := by
  cases x <;> cases y <;> cases z <;> rfl

/-- C9 (code_bug): the two Blocks built with the properties argument omitted
share the single default list object, so appending 1.0 through the first
Block is observed through the second Block's properties, which read [1]
instead of the claimed independent empty list. -/
theorem C9_shared_default : c9Observed = .ok [(1 : ℚ)] := rfl

/-- C10 (confirmed): exporting the empty save yields exactly "???" — the
three segment delimiters with all four segments empty — even though the
grammar's blocks segment requires at least one record. -/
theorem C10_export_empty_save : Save.new.exportSave = some "???" := rfl

end Cm2py
